import Mathlib

/-!
Verification development for the `wiffecg` repository (file `wiffecg/__init__.py`).

The development shallowly embeds the zip-backed staged-pipeline state machine
(`ZipMan`, `WIFFECG.ProcessRRToZip`), the interval-to-frame conversion, and the
PDF pagination loop (`WIFFECG.ExportToPDF`).  Python floats are modelled as
rationals, Python exceptions as an explicit error type, and the pickled state
dictionary as a record with optional fields (a `none` field plays the role of
an absent dictionary key, `PyVal.pyNone` the role of a stored Python `None`).
External collaborators (the `pyzestyecg` engine) are parameters supplied as a
record of fallible functions.
-/

/-- Python exception values raised by the embedded code. -/
inductive PyErr where
  /-- `AttributeError`, e.g. attribute access on `None`. -/
  | attributeError (msg : String)
  /-- `NameError`, raised when an unbound name is evaluated. -/
  | nameError (nm : String)
  /-- `KeyError`, raised by a dictionary lookup of an absent key. -/
  | keyError (k : String)
  /-- `NotImplementedError`. -/
  | notImplementedError (msg : String)
  /-- A bare `Exception(msg)`. -/
  | exception (msg : String)
  /-- An opaque exception raised by the external engine. -/
  | raised (code : Nat)
deriving Repr, DecidableEq

/-- Values stored in the pickled state dictionary: Python `None`, the channel
name list, or an opaque datum produced by the external engine. -/
inductive PyVal where
  | pyNone
  | strs (l : List String)
  | dat (n : Nat)
deriving Repr, DecidableEq

/-- The record stored by `ZipMan.SetError`:
a dictionary of the exception instance, traceback, message and data object. -/
structure ErrRec where
  exc : PyErr
  tb : Nat
  msg : String
  dat : Option Nat
deriving Repr, DecidableEq

/-- `ZipMan.ProcessingStateEnum` from the source (values 0..8, 100, 1000). -/
inductive ProcessingStateEnum where
  | EMPTY
  | INITIALIZED
  | CORRELATE
  | KEEPKEYS
  | REMOVEKEYS
  | USERFILTER
  | CALCULATERR
  | SAVEPNG
  | SAVEPDF
  | COMPLETED
  | ERROR
deriving Repr, DecidableEq

/-- The integer value of each `ProcessingStateEnum` member in the source. -/
def ProcessingStateEnum.toInt : ProcessingStateEnum → Nat
  | .EMPTY => 0
  | .INITIALIZED => 1
  | .CORRELATE => 2
  | .KEEPKEYS => 3
  | .REMOVEKEYS => 4
  | .USERFILTER => 5
  | .CALCULATERR => 6
  | .SAVEPNG => 7
  | .SAVEPDF => 8
  | .COMPLETED => 100
  | .ERROR => 1000

/-- The pickled state dictionary of `ZipMan`.  `state` and `error` are always
present (set by `ZipMan.__init__`); the capitalised fields model dictionary
keys that may be absent (`none`) or hold a value (`some v`, where
`v = PyVal.pyNone` models a stored Python `None`). -/
structure StateRec where
  state : ProcessingStateEnum
  error : Option ErrRec
  Channels : Option PyVal := none
  Potentials : Option PyVal := none
  Peaks : Option PyVal := none
  Correlate : Option PyVal := none
  Keep : Option PyVal := none
  Remove : Option PyVal := none
  UserFilter : Option PyVal := none
  Points : Option PyVal := none
deriving Repr, DecidableEq

/-- The state dictionary created by `ZipMan.__init__`:
state key EMPTY, error key None. -/
def initStateRec : StateRec :=
  { state := .EMPTY, error := none }

/-- The data-field keys of the state dictionary (everything except the
bookkeeping keys `state` and `error`). -/
inductive FieldKey where
  | Channels
  | Potentials
  | Peaks
  | Correlate
  | Keep
  | Remove
  | UserFilter
  | Points
deriving Repr, DecidableEq

/-- Dictionary lookup of a data field (absent key gives `none`). -/
def getField (s : StateRec) : FieldKey → Option PyVal
  | .Channels => s.Channels
  | .Potentials => s.Potentials
  | .Peaks => s.Peaks
  | .Correlate => s.Correlate
  | .Keep => s.Keep
  | .Remove => s.Remove
  | .UserFilter => s.UserFilter
  | .Points => s.Points

/-- The dictionary key string of a data field. -/
def FieldKey.keyName : FieldKey → String
  | .Channels => "Channels"
  | .Potentials => "Potentials"
  | .Peaks => "Peaks"
  | .Correlate => "Correlate"
  | .Keep => "Keep"
  | .Remove => "Remove"
  | .UserFilter => "UserFilter"
  | .Points => "Points"

/-- `z.State[k]` — dictionary read that raises `KeyError` on an absent key. -/
def getKey (s : StateRec) (k : FieldKey) : Except PyErr PyVal :=
  match getField s k with
  | some v => .ok v
  | none => .error (.keyError k.keyName)

/-- `ZipMan.SetError`: sets the state to `ERROR` and records the exception
instance, traceback, message and optional data object in the `error` key. -/
def SetError (s : StateRec) (e : PyErr) (tb : Nat) (msg : String)
    (dat : Option Nat) : StateRec :=
  { s with state := .ERROR, error := some ⟨e, tb, msg, dat⟩ }

/-- The external `pyzestyecg` engine, as a record of fallible operations
(signatures follow the call sites in `ProcessRRToZip`). -/
structure Engine where
  GetPotentialsAndPeaks :
    List (Int × Int) → List (Int × Int) → Except PyErr (PyVal × PyVal)
  GetCorrelate : PyVal → PyVal → PyVal → Except PyErr PyVal
  GetKeepKeys : PyVal → PyVal → Except PyErr (PyVal × PyVal)
  GetRemoveKeys : PyVal → PyVal → PyVal → PyVal → Except PyErr PyVal
  CheckUserFilter :
    PyVal → PyVal → PyVal → PyVal → PyVal → Except PyErr PyVal
  CalculateRR :
    PyVal → PyVal → PyVal → PyVal → List (String × List (Int × Int)) →
      List (Int × Int) → Nat → Except PyErr PyVal

/-- An engine whose every operation succeeds (returning opaque data). -/
def okEngine : Engine where
  GetPotentialsAndPeaks := fun _ _ => .ok (.dat 1, .dat 2)
  GetCorrelate := fun _ _ _ => .ok (.dat 3)
  GetKeepKeys := fun _ _ => .ok (.dat 4, .dat 5)
  GetRemoveKeys := fun _ _ _ _ => .ok (.dat 6)
  CheckUserFilter := fun _ _ _ _ _ => .ok .pyNone
  CalculateRR := fun _ _ _ _ _ _ _ => .ok .pyNone

/-- Outcome of one execution of the stage-dispatch body: the in-memory state
dictionary, the persisted copy inside the zip, and the exception that
propagated out of the body, if any. -/
structure StepOut where
  mem : StateRec
  disk : StateRec
  err : Option PyErr
deriving Repr, DecidableEq

/-- Body outcome when an exception `e` propagates before any mutation. -/
def failStep (s : StateRec) (e : PyErr) : StepOut :=
  { mem := s, disk := s, err := some e }

/-- Body outcome when the branch mutated the state to `s1` and then called
`z.SaveState()` (every non-raising branch of the source ends in
`z.SaveState()`). -/
def saveStep (s1 : StateRec) : StepOut :=
  { mem := s1, disk := s1, err := none }

/-- The stage-dispatch body of `WIFFECG.ProcessRRToZip` (source lines
200-309), as it executes on the `ZipMan` the `with`-statement constructs:
the `elif` cascade over the mutually exclusive `IsState*` predicates is
rendered as a match on the state value.  The state dictionary `s` is the one
loaded by `ZipMan.open`; `leads` is `self.GetLeads()`; `iuser`, `iignore`,
`inoise` are the frame-converted interval lists; `params` is opaque.

Source infidelities deliberately kept: in the `IsStateCorrelate` branch the
source evaluates the unbound name `chan` (the preceding line binds `chans`),
so that branch raises `NameError` after its three dictionary reads; the
`IsStateCompleted` branch and the final `else` branch raise
`NotImplementedError("Should not reach this point")`; no branch is guarded
by `try`/`except`, so engine exceptions propagate. -/
def processStage (savepng savepdf : Bool) (eng : Engine) (leads : List String)
    (iuser : List (String × List (Int × Int))) (iignore : List (Int × Int))
    (inoise : List (Int × Int)) (params : Nat) (s : StateRec) : StepOut :=
  match s.state with
  | .EMPTY =>
      -- z.State of key Channels = self.GetLeads(); other keys set to None;
      -- z.SetStatInitialized(); z.SaveState().  (Key Points is not initialized.)
      saveStep { s with
        Channels := some (.strs leads), Potentials := some .pyNone,
        Peaks := some .pyNone, Correlate := some .pyNone,
        Keep := some .pyNone, Remove := some .pyNone,
        UserFilter := some .pyNone, state := .INITIALIZED }
  | .INITIALIZED =>
      -- p = pyzestyecg(self.wiff, params)
      -- potentials, peaks = p.GetPotentialsAndPeaks(ignore, noise)
      match eng.GetPotentialsAndPeaks iignore inoise with
      | .error e => failStep s e
      | .ok (potentials, peaks) =>
          saveStep { s with
            Potentials := some potentials,
            Peaks := some peaks, state := .CORRELATE }
  | .CORRELATE =>
      -- chans/potentials/peaks are read, then the call
      -- p.GetCorrelate(chan, potentials, peaks) evaluates the unbound name
      -- `chan` and raises NameError before the engine is invoked.
      match getKey s .Channels with
      | .error e => failStep s e
      | .ok _chans =>
      match getKey s .Potentials with
      | .error e => failStep s e
      | .ok _potentials =>
      match getKey s .Peaks with
      | .error e => failStep s e
      | .ok _peaks => failStep s (.nameError "chan")
  | .KEEPKEYS =>
      match getKey s .Channels with
      | .error e => failStep s e
      | .ok chans =>
      match getKey s .Peaks with
      | .error e => failStep s e
      | .ok peaks =>
      match eng.GetKeepKeys chans peaks with
      | .error e => failStep s e
      | .ok (points, keep) =>
          saveStep { s with
            Keep := some keep, Points := some points,
            state := .REMOVEKEYS }
  | .REMOVEKEYS =>
      match getKey s .Channels with
      | .error e => failStep s e
      | .ok chans =>
      match getKey s .Correlate with
      | .error e => failStep s e
      | .ok correlate =>
      match getKey s .Points with
      | .error e => failStep s e
      | .ok points =>
      match getKey s .Keep with
      | .error e => failStep s e
      | .ok keep =>
      match eng.GetRemoveKeys chans correlate points keep with
      | .error e => failStep s e
      | .ok remove =>
          saveStep { s with Remove := some remove, state := .USERFILTER }
  | .USERFILTER =>
      match getKey s .Channels with
      | .error e => failStep s e
      | .ok chans =>
      match getKey s .Points with
      | .error e => failStep s e
      | .ok points =>
      match getKey s .Keep with
      | .error e => failStep s e
      | .ok keep =>
      match getKey s .Remove with
      | .error e => failStep s e
      | .ok remove =>
      match getKey s .UserFilter with
      | .error e => failStep s e
      | .ok user =>
      match eng.CheckUserFilter chans points keep remove user with
      | .error e => failStep s e
      | .ok _ => saveStep { s with state := .CALCULATERR }
  | .CALCULATERR =>
      match getKey s .Channels with
      | .error e => failStep s e
      | .ok chans =>
      match getKey s .Correlate with
      | .error e => failStep s e
      | .ok _correlate =>
      match getKey s .Keep with
      | .error e => failStep s e
      | .ok keep =>
      match getKey s .Remove with
      | .error e => failStep s e
      | .ok remove =>
      match getKey s .UserFilter with
      | .error e => failStep s e
      | .ok user =>
      match eng.CalculateRR chans keep remove user iuser inoise params with
      | .error e => failStep s e
      | .ok _ =>
          -- if savepng: SetStateSavePNG elif savepdf: SetStateSavePDF
          -- else: SetStateCompleted; then SaveState
          saveStep { s with
            state :=
              if savepng then .SAVEPNG
              else if savepdf then .SAVEPDF else .COMPLETED }
  | .SAVEPNG =>
      -- print("Save as PNG"); if savepdf: SetStateSavePDF else Completed
      saveStep { s with state := if savepdf then .SAVEPDF else .COMPLETED }
  | .SAVEPDF =>
      -- print("Save as PDF"); SetStateCompleted; SaveState
      saveStep { s with state := .COMPLETED }
  | .COMPLETED =>
      failStep s (.notImplementedError "Should not reach this point")
  | .ERROR =>
      -- state == ERROR matches no IsState* predicate: the final else branch
      failStep s (.notImplementedError "Should not reach this point")

/-- The Python builtin `round` on an exact value: round to the nearest
integer, ties to the even integer. -/
def pyRound (q : ℚ) : ℤ :=
  if q - ⌊q⌋ < 1/2 then ⌊q⌋
  else if 1/2 < q - ⌊q⌋ then ⌊q⌋ + 1
  else if ⌊q⌋ % 2 = 0 then ⌊q⌋ else ⌊q⌋ + 1

/-- The Python builtin `int` applied to a number: truncation toward zero. -/
def pyInt (q : ℚ) : ℤ :=
  if q < 0 then -⌊-q⌋ else ⌊q⌋

/-- The caller-supplied `@intervals` dictionary of `ProcessRRToZip`:
the user key maps names to lists of seconds pairs, noise and ignore are
lists of seconds pairs. -/
structure Intervals where
  user : List (String × List (ℚ × ℚ))
  noise : List (ℚ × ℚ)
  ignore : List (ℚ × ℚ)

/-- `intervals_user_frames` (source lines 187-189): each seconds pair is
converted to `(round(start*samp), round(stop*samp))`. -/
def intervalsUserFrames (samp : ℚ) (user : List (String × List (ℚ × ℚ))) :
    List (String × List (Int × Int)) :=
  user.map fun kv =>
    (kv.1, kv.2.map fun p => (pyRound (p.1 * samp), pyRound (p.2 * samp)))

/-- `intervals_ignore_frames` (source lines 191-193). -/
def intervalsIgnoreFrames (samp : ℚ) (l : List (ℚ × ℚ)) :
    List (Int × Int) :=
  l.map fun p => (pyRound (p.1 * samp), pyRound (p.2 * samp))

/-- `intervals_noise_frames` (source lines 195-197). -/
def intervalsNoiseFrames (samp : ℚ) (l : List (ℚ × ℚ)) :
    List (Int × Int) :=
  l.map fun p => (pyRound (p.1 * samp), pyRound (p.2 * samp))

/-- The `ZipMan` object: archive path, the zip handle (`None` until `open`),
and the in-memory state dictionary built by `__init__`. -/
structure ZipMan where
  fname : String
  zipH : Option Unit
  stateM : StateRec
deriving Repr, DecidableEq

/-- `ZipMan(fname)`: no handle, fresh state dictionary (EMPTY, no error). -/
def ZipMan.init (f : String) : ZipMan :=
  { fname := f, zipH := none, stateM := initStateRec }

/-- `ZipMan.open` (source lines 444-456).  `arch` is the persisted state blob
inside the zip file (`none` when `state.pypickle` is not in the archive).
Raises `Exception("File is already open")` when this instance already holds a
handle; otherwise opens the zip, and either writes the current in-memory
state into the archive (absent blob) or loads the persisted blob into
memory. -/
def ZipMan.openFile (zm : ZipMan) (arch : Option StateRec) :
    Except PyErr (ZipMan × Option StateRec) :=
  if zm.zipH.isSome then
    .error (.exception "File is already open")
  else
    match arch with
    | none => .ok ({ zm with zipH := some () }, some zm.stateM)
    | some s => .ok ({ zm with zipH := some (), stateM := s }, some s)

/-- `ZipMan.__enter__` (source lines 470-471): the body is `self.open()` with
no `return`, so the context-manager target is bound to Python `None`
(modelled as `none`), never to the instance. -/
def ZipMan.enterResult (_zm : ZipMan) : Option ZipMan :=
  none

/-- `WIFFECG.ProcessRRToZip` (source lines 171-311).  `leads` is
`self.GetLeads()`, `samp` the sampling rate of the recording, `eng` the external
`pyzestyecg` engine, and `arch` the persisted state blob of the zip at
`fname`.  Returns the Python outcome (`.ok` of the returned boolean, or
`.error` of the propagated exception) together with the persisted blob after
the call.  The interval conversion happens first; then
`with ZipMan(fname) as z` constructs a fresh manager, `__enter__` opens the
archive and returns `None`, so the first expression of the body, `z.IsStateEmpty`,
is an attribute access on `None` and raises `AttributeError`; the dead
`some z` branch shows the body that would have run on the instance. -/
def ProcessRRToZip (fname : String) (params : Nat) (intervals : Intervals)
    (savepng savepdf : Bool) (eng : Engine) (leads : List String) (samp : ℚ)
    (arch : Option StateRec) : Except PyErr Bool × Option StateRec :=
  let iuser := intervalsUserFrames samp intervals.user
  let iignore := intervalsIgnoreFrames samp intervals.ignore
  let inoise := intervalsNoiseFrames samp intervals.noise
  match ZipMan.openFile (ZipMan.init fname) arch with
  | .error e => (.error e, arch)
  | .ok (zm1, arch1) =>
    match ZipMan.enterResult zm1 with
    | none =>
        (.error (.attributeError
          "NoneType object has no attribute IsStateEmpty"), arch1)
    | some z =>
        let out := processStage savepng savepdf eng leads iuser iignore
          inoise params z.stateM
        match out.err with
        | some e => (.error e, some out.disk)
        | none => (.ok (out.mem.state == .COMPLETED), some out.disk)

/-- The persisted blob after `n` repeated invocations of `ProcessRRToZip` on
an initially absent archive (fixed trivial intervals, sampling rate 500,
the always-succeeding engine). -/
def runFresh (savepng savepdf : Bool) : Nat → Option StateRec
  | 0 => none
  | n + 1 =>
      (ProcessRRToZip "f.zip" 0 ⟨[], [], []⟩ savepng savepdf okEngine
        ["Lead I"] 500 (runFresh savepng savepdf n)).2

/-- The per-page window length in samples of `WIFFECG.ExportToPDF` (source
lines 118-123): `width = 8.0` inches, `samps = (width * 25.4) / speed * freq`,
`step = int(samps)`. -/
def exportStepSamples (speed freq : ℚ) : ℤ :=
  pyInt ((8 * (254/10)) / speed * freq)

/-- Accumulator of the `ExportToPDF` frame loop: pages saved so far (each a
snapshot of the time and per-lead value buffers at save time), and the
reusable `times` and `vals` buffers. -/
structure PdfAcc where
  pages : List (List ℚ × List (List ℚ))
  times : List ℚ
  vals : List (List ℚ)
deriving Repr, DecidableEq

/-- One iteration of the `ExportToPDF` frame loop (source lines 134-169) on a
frame `(f[0], f[2])`: `page, r = divmod(f[0]+1, step)`; when `r == 0` the
buffered data is rendered as a page and the buffers are cleared (reused, not
reallocated); then the time and per-lead values of the frame are appended. -/
def pdfFrameStep (freq : ℚ) (step : ℤ) (acc : PdfAcc) (f : ℕ × List ℚ) :
    PdfAcc :=
  let r := ((f.1 : ℤ) + 1) % step
  let acc1 :=
    if r = 0 then
      { pages := acc.pages ++ [(acc.times, acc.vals)],
        times := ([] : List ℚ),
        vals := acc.vals.map fun _ => ([] : List ℚ) }
    else acc
  { acc1 with
    times := acc1.times ++ [(f.1 : ℚ) / freq],
    vals := acc1.vals.zipWith (fun buf x => buf ++ [x]) f.2 }

/-- The `ExportToPDF` frame loop over a whole frame stream, starting from
empty buffers (one value buffer per lead). -/
def exportFrames (freq : ℚ) (step : ℤ) (nleads : ℕ)
    (frames : List (ℕ × List ℚ)) : PdfAcc :=
  frames.foldl (pdfFrameStep freq step)
    { pages := [], times := [], vals := List.replicate nleads [] }

/-- The stage that produces each State Record field, per the stage table of
the spec (§4.3): EMPTY produces `channels`; INITIALIZED produces `potentials`
and `peaks`; CORRELATE produces `correlate`; KEEPKEYS produces `points` and
`keep`; REMOVEKEYS produces `remove`; USERFILTER produces `userFilter`.
Used only to state the field-ownership claim. -/
def specFieldProducer : FieldKey → ProcessingStateEnum
  | .Channels => .EMPTY
  | .Potentials => .INITIALIZED
  | .Peaks => .INITIALIZED
  | .Correlate => .CORRELATE
  | .Keep => .KEEPKEYS
  | .Points => .KEEPKEYS
  | .Remove => .REMOVEKEYS
  | .UserFilter => .USERFILTER

/-- The data fields that the source branch for each stage assigns into
`z.State` (the EMPTY branch initializes every field it touches, including
fields of later stages, to `None`; `Points` is only written by the KEEPKEYS
branch). -/
def stageWrites : ProcessingStateEnum → List FieldKey
  | .EMPTY =>
      [.Channels, .Potentials, .Peaks, .Correlate, .Keep, .Remove,
        .UserFilter]
  | .INITIALIZED => [.Potentials, .Peaks]
  | .KEEPKEYS => [.Keep, .Points]
  | .REMOVEKEYS => [.Remove]
  | _ => []

/-- States of the persisted record reachable from a fresh archive by
repeated invocations of the stage-dispatch body (any flags, any engine, any
converted interval lists) that complete without an exception; the next
invocation resumes from the persisted copy. -/
inductive Reach (leads : List String) : StateRec → Prop where
  | fresh : Reach leads initStateRec
  | step (png pdf : Bool) (eng : Engine)
      (iu : List (String × List (Int × Int))) (ii inz : List (Int × Int))
      (params : Nat) (s : StateRec) :
      Reach leads s →
      (processStage png pdf eng leads iu ii inz params s).err = none →
      Reach leads (processStage png pdf eng leads iu ii inz params s).disk

/-- An engine whose detection stage raises an (opaque) exception. -/
def failEngine : Engine :=
  { okEngine with GetPotentialsAndPeaks := fun _ _ => .error (.raised 7) }

/-- The persisted record after the EMPTY stage has run with lead list
`["Lead I"]`: the shape in which the detection stage is entered. -/
def exInitState : StateRec :=
  { state := .INITIALIZED, error := none,
    Channels := some (.strs ["Lead I"]), Potentials := some .pyNone,
    Peaks := some .pyNone, Correlate := some .pyNone,
    Keep := some .pyNone, Remove := some .pyNone,
    UserFilter := some .pyNone, Points := none }

/-- A record in stage CORRELATE with detection results stored (the shape the
correlation stage is entered in). -/
def exCorrelateState : StateRec :=
  { exInitState with
    state := .CORRELATE,
    Potentials := some (.dat 1), Peaks := some (.dat 2) }

/-- A record in stage CALCULATERR with all earlier results stored. -/
def exCalcState : StateRec :=
  { exInitState with
    state := .CALCULATERR,
    Potentials := some (.dat 1), Peaks := some (.dat 2),
    Correlate := some (.dat 3), Keep := some (.dat 5),
    Remove := some (.dat 6), Points := some (.dat 4) }

/-- A record in the terminal COMPLETED stage. -/
def exCompletedState : StateRec :=
  { exCalcState with state := .COMPLETED }

/-- A record in the terminal ERROR stage (with stored detection results). -/
def exErrorState : StateRec :=
  { exInitState with
    state := .ERROR,
    error := some ⟨.raised 7, 3, "boom", none⟩ }


/-- A record in stage SAVEPNG with all earlier results stored. -/
def exPngState : StateRec :=
  { exCalcState with state := .SAVEPNG }

/-- A record in stage SAVEPDF with all earlier results stored. -/
def exPdfState : StateRec :=
  { exCalcState with state := .SAVEPDF }

/-! ## Helper lemmas -/

/-- Every execution of the stage-dispatch body either completes without an
exception and persists exactly its final in-memory state, or propagates an
exception with both the in-memory and persisted records untouched. -/
theorem processStage_cases (png pdf : Bool) (eng : Engine)
    (leads : List String) (iu : List (String × List (Int × Int)))
    (ii inz : List (Int × Int)) (params : Nat) (s : StateRec) :
    (let out := processStage png pdf eng leads iu ii inz params s
     (out.err = none ∧ out.mem = out.disk) ∨
       (∃ e, out.err = some e ∧ out.mem = s ∧ out.disk = s)) := by
  unfold processStage
  cases s.state <;>
    (repeat' split) <;>
    first
      | exact Or.inl ⟨rfl, rfl⟩
      | exact Or.inr ⟨_, rfl, rfl, rfl⟩

/-- A completed CALCULATERR invocation advances to the flag-selected
successor stage. -/
theorem calcrr_next (png pdf : Bool) (eng : Engine) (leads : List String)
    (iu : List (String × List (Int × Int))) (ii inz : List (Int × Int))
    (params : Nat) (s : StateRec) (h : s.state = .CALCULATERR)
    (hok : (processStage png pdf eng leads iu ii inz params s).err = none) :
    (processStage png pdf eng leads iu ii inz params s).mem.state =
      (if png then .SAVEPNG else if pdf then .SAVEPDF else .COMPLETED) := by
  unfold processStage at hok ⊢
  rw [h] at hok ⊢
  (repeat' split at hok) <;> simp_all [failStep, saveStep]

/-- A data field outside the write set of the current stage is unchanged by
the dispatch body. -/
theorem getField_unchanged (png pdf : Bool) (eng : Engine)
    (leads : List String) (iu : List (String × List (Int × Int)))
    (ii inz : List (Int × Int)) (params : Nat) (s : StateRec) (k : FieldKey)
    (hk : ¬ k ∈ stageWrites s.state) :
    getField (processStage png pdf eng leads iu ii inz params s).mem k =
      getField s k := by
  unfold processStage
  cases hs : s.state <;> rw [hs] at hk <;> simp [stageWrites] at hk <;>
    (repeat' split) <;>
    first
      | rfl
      | (cases k <;> simp_all [getField, failStep, saveStep])

/-- The CORRELATE branch always propagates an exception (the unbound name
`chan`, or a `KeyError` on a missing field). -/
theorem correlate_fails (png pdf : Bool) (eng : Engine) (leads : List String)
    (iu : List (String × List (Int × Int))) (ii inz : List (Int × Int))
    (params : Nat) (s : StateRec) (h : s.state = .CORRELATE) :
    (processStage png pdf eng leads iu ii inz params s).err.isSome := by
  unfold processStage
  rw [h]
  (repeat' split) <;> simp_all [failStep, saveStep]

/-- Shape of the records reachable from a fresh archive: the fresh EMPTY
record, the record left by the EMPTY stage (stage INITIALIZED, placeholder
`None` detection fields), or a record in stage CORRELATE — from which every
further invocation raises. -/
theorem reach_shape (leads : List String) (s : StateRec)
    (h : Reach leads s) :
    s = initStateRec ∨
      (s.state = .INITIALIZED ∧ s.Potentials = some .pyNone ∧
        s.Peaks = some .pyNone) ∨
      s.state = .CORRELATE := by
  induction h with
  | fresh => exact Or.inl rfl
  | step png pdf eng iu ii inz params s hr hok ih =>
    rcases ih with h2 | ⟨h1, h2, h3⟩ | h1
    · subst h2
      exact Or.inr (Or.inl ⟨rfl, rfl, rfl⟩)
    · rcases he : eng.GetPotentialsAndPeaks ii inz with e | ⟨p, q⟩ <;>
        simp [processStage, h1, he, failStep, saveStep] at hok ⊢
    · have hf := correlate_fails png pdf eng leads iu ii inz params s h1
      simp [hok] at hf

/-- The value of `pyRound` is a nearest integer: it differs from its argument
by at most one half. -/
theorem pyRound_nearest (q : ℚ) : |q - (pyRound q : ℚ)| ≤ 1/2 := by
  have h0 : (⌊q⌋ : ℚ) ≤ q := Int.floor_le q
  have h1 : q < ⌊q⌋ + 1 := Int.lt_floor_add_one q
  unfold pyRound
  split
  · rename_i h
    rw [abs_le]
    constructor <;> linarith
  · split
    · rename_i h h2
      push_cast
      rw [abs_le]
      constructor <;> linarith
    · rename_i h h2
      have hr : q - ⌊q⌋ = 1/2 := by linarith
      split
      · rw [abs_le]
        constructor <;> linarith
      · push_cast
        rw [abs_le]
        constructor <;> linarith

/-- Page-count characterisation of the `ExportToPDF` loop: folding the frame
loop emits one page per frame whose one-shifted index is divisible by the
window length. -/
theorem exportPages_len (freq : ℚ) (step : ℤ) (frames : List (ℕ × List ℚ))
    (acc : PdfAcc) :
    (frames.foldl (pdfFrameStep freq step) acc).pages.length =
      acc.pages.length +
        frames.countP (fun f => ((f.1 : ℤ) + 1) % step == 0) := by
  induction frames generalizing acc with
  | nil => simp
  | cons f fs ih =>
    rw [List.foldl_cons, ih, List.countP_cons]
    by_cases hr : ((f.1 : ℤ) + 1) % step = 0 <;>
      simp [pdfFrameStep, hr] <;> omega

/-- Every invocation of the embedded `ProcessRRToZip` raises
`AttributeError` (the `with`-statement target is `None`), leaving the
persisted record as `ZipMan.open` left it: the pre-existing blob, or the
fresh EMPTY record written on first open. -/
theorem processRRToZip_attr (fname : String) (params : Nat)
    (intervals : Intervals) (png pdf : Bool) (eng : Engine)
    (leads : List String) (samp : ℚ) (arch : Option StateRec) :
    ProcessRRToZip fname params intervals png pdf eng leads samp arch =
      (.error (.attributeError
        "NoneType object has no attribute IsStateEmpty"),
       some (arch.getD initStateRec)) := by
  cases arch <;> rfl

/-! ## Claim theorems -/

/-- C2: for every call of `ProcessRRToZip`, the context-manager entry
`ZipMan.__enter__` returns `None` rather than the instance, so the
`with`-target `z` is `None` and the first state check `z.IsStateEmpty`
raises `AttributeError` before any stage work runs or any stage transition
is persisted: the persisted blob after the call is exactly what
`ZipMan.open` left (the pre-existing record unchanged, or the pristine
EMPTY record created on first open). -/
theorem wiffecg_C2_enter_returns_none :
    (∀ zm : ZipMan, ZipMan.enterResult zm = none) ∧
    (∀ (fname : String) (params : Nat) (intervals : Intervals)
       (png pdf : Bool) (eng : Engine) (leads : List String) (samp : ℚ)
       (arch : Option StateRec),
       ProcessRRToZip fname params intervals png pdf eng leads samp arch =
         (.error (.attributeError
           "NoneType object has no attribute IsStateEmpty"),
          some (arch.getD initStateRec))) :=
  ⟨fun _ => rfl, processRRToZip_attr⟩

/-- C1 (code bug): repeated invocation of `ProcessRRToZip` on a fresh
archive never reaches COMPLETED — in 7, 9, or any number of invocations,
with any flag combination: every invocation raises `AttributeError`
(`__enter__` returns `None`), and the persisted record stays at the EMPTY
stage forever. -/
theorem wiffecg_C1_never_completes :
    ∀ (png pdf : Bool) (n : Nat),
      (ProcessRRToZip "f.zip" 0 ⟨[], [], []⟩ png pdf okEngine ["Lead I"] 500
          (runFresh png pdf n)).1 =
        .error (.attributeError
          "NoneType object has no attribute IsStateEmpty") ∧
      (runFresh png pdf n = none ∨ runFresh png pdf n = some initStateRec) ∧
      initStateRec.state = .EMPTY := by
  intro png pdf n
  refine ⟨?_, ?_, rfl⟩
  · rw [processRRToZip_attr]
  · induction n with
    | zero => exact Or.inl rfl
    | succ m ih =>
      right
      rcases ih with h | h <;>
        simp only [runFresh, processRRToZip_attr, h, Option.getD]

/-- C3 counterexample: with an engine whose detection stage raises, the
INITIALIZED-stage invocation propagates the exception (err is the raised
exception, not caught), the state does not transition to ERROR, no error
record is stored, and nothing is persisted — refuting the claim that the
driver catches stage exceptions and records a persisted ERROR state. -/
theorem wiffecg_C3_counterexample :
    (processStage false false failEngine ["Lead I"] [] [] [] 0
        exInitState).err = some (.raised 7) ∧
    (processStage false false failEngine ["Lead I"] [] [] [] 0
        exInitState).mem.state = .INITIALIZED ∧
    (ProcessingStateEnum.INITIALIZED ≠ .ERROR) ∧
    (processStage false false failEngine ["Lead I"] [] [] [] 0
        exInitState).mem.error = none ∧
    (processStage false false failEngine ["Lead I"] [] [] [] 0
        exInitState).disk = exInitState :=
  ⟨rfl, rfl, by decide, rfl, rfl⟩

/-- C3 amended: exceptions raised by stage work are not caught by the
driver — they propagate to the caller, and the failing invocation leaves
both the in-memory and the persisted record exactly as they were, so all
previously-completed stage results remain intact; `ZipMan.SetError` (which
the driver never calls) would transition to ERROR and record the
fault/trace/message/data in the error field while leaving every data field
unchanged. -/
theorem wiffecg_C3_amended :
    (∀ (png pdf : Bool) (eng : Engine) (leads : List String)
       (iu : List (String × List (Int × Int))) (ii inz : List (Int × Int))
       (params : Nat) (s : StateRec) (e : PyErr),
       (processStage png pdf eng leads iu ii inz params s).err = some e →
       (processStage png pdf eng leads iu ii inz params s).mem = s ∧
       (processStage png pdf eng leads iu ii inz params s).disk = s) ∧
    (∀ (s : StateRec) (e : PyErr) (tb : Nat) (msg : String)
       (dat : Option Nat),
       (SetError s e tb msg dat).state = .ERROR ∧
       (SetError s e tb msg dat).error = some ⟨e, tb, msg, dat⟩ ∧
       ∀ k, getField (SetError s e tb msg dat) k = getField s k) := by
  constructor
  · intro png pdf eng leads iu ii inz params s e h
    rcases processStage_cases png pdf eng leads iu ii inz params s with
      ⟨h1, _⟩ | ⟨e', _, hm, hd⟩
    · rw [h] at h1
      cases h1
    · exact ⟨hm, hd⟩
  · intro s e tb msg dat
    refine ⟨rfl, rfl, fun k => ?_⟩
    cases k <;> rfl

/-- C3 amended, witness at the concrete failing detection stage. -/
theorem wiffecg_C3_amended_witness :
    ((processStage false false failEngine ["Lead I"] [] [] [] 0
        exInitState).err = some (.raised 7)) ∧
    (processStage false false failEngine ["Lead I"] [] [] [] 0
        exInitState).mem = exInitState ∧
    (processStage false false failEngine ["Lead I"] [] [] [] 0
        exInitState).disk = exInitState :=
  ⟨rfl,
   (wiffecg_C3_amended.1 false false failEngine ["Lead I"] [] [] [] 0
     exInitState (.raised 7) rfl).1,
   (wiffecg_C3_amended.1 false false failEngine ["Lead I"] [] [] [] 0
     exInitState (.raised 7) rfl).2⟩

/-- C4 counterexample: invoking the dispatch in the terminal COMPLETED
state raises `NotImplementedError` rather than returning as a no-op, and
invoking it in the terminal ERROR state raises the same
`NotImplementedError` (the catch-all branch) rather than a dedicated
pipeline-already-failed error. -/
theorem wiffecg_C4_counterexample :
    (processStage false false okEngine ["Lead I"] [] [] [] 0
        exCompletedState).err =
      some (.notImplementedError "Should not reach this point") ∧
    (processStage false false okEngine ["Lead I"] [] [] [] 0
        exErrorState).err =
      some (.notImplementedError "Should not reach this point") :=
  ⟨rfl, rfl⟩

/-- C4 amended: COMPLETED and ERROR are terminal in that no stage
transition ever occurs from them, but invoking the driver there raises
`NotImplementedError("Should not reach this point")` — in both cases the
in-memory and persisted records, including every previously stored field,
are left untouched. -/
theorem wiffecg_C4_terminal_amended :
    ∀ (png pdf : Bool) (eng : Engine) (leads : List String)
      (iu : List (String × List (Int × Int))) (ii inz : List (Int × Int))
      (params : Nat) (s : StateRec),
      s.state = .COMPLETED ∨ s.state = .ERROR →
      processStage png pdf eng leads iu ii inz params s =
        failStep s (.notImplementedError "Should not reach this point") := by
  intro png pdf eng leads iu ii inz params s h
  rcases h with h | h <;> simp [processStage, h]

/-- C4 amended, witness at the COMPLETED record. -/
theorem wiffecg_C4_terminal_witness :
    (exCompletedState.state = .COMPLETED ∨ exCompletedState.state = .ERROR) ∧
    processStage false false okEngine ["Lead I"] [] [] [] 0
        exCompletedState =
      failStep exCompletedState
        (.notImplementedError "Should not reach this point") :=
  ⟨Or.inl rfl,
   wiffecg_C4_terminal_amended false false okEngine ["Lead I"] [] [] [] 0
     exCompletedState (Or.inl rfl)⟩

/-- C5: interval-to-frame conversion in `ProcessRRToZip` is, for each of
the three categories (user, noise, ignore), the pure pointwise function
frame = round(seconds * samplingRate); the rounding is nearest-integer
(differs from the exact product by at most one half), and the concrete
examples hold: (1.0, 2.5) at rate 500 gives (500, 1250) and
(0.001, 0.002) at rate 1000 gives (1, 2). -/
theorem wiffecg_C5_interval_conversion :
    (∀ (samp : ℚ) (l : List (ℚ × ℚ)),
       intervalsIgnoreFrames samp l =
         l.map fun p => (pyRound (p.1 * samp), pyRound (p.2 * samp))) ∧
    (∀ (samp : ℚ) (l : List (ℚ × ℚ)),
       intervalsNoiseFrames samp l =
         l.map fun p => (pyRound (p.1 * samp), pyRound (p.2 * samp))) ∧
    (∀ (samp : ℚ) (u : List (String × List (ℚ × ℚ))),
       intervalsUserFrames samp u =
         u.map fun kv =>
           (kv.1, kv.2.map fun p =>
             (pyRound (p.1 * samp), pyRound (p.2 * samp)))) ∧
    (∀ q : ℚ, |q - (pyRound q : ℚ)| ≤ 1/2) ∧
    intervalsIgnoreFrames 500 [(1, 5/2)] = [(500, 1250)] ∧
    intervalsIgnoreFrames 1000 [(1/1000, 1/500)] = [(1, 2)] ∧
    intervalsNoiseFrames 500 [(1, 5/2)] = [(500, 1250)] ∧
    intervalsUserFrames 500 [("run", [(1, 5/2)])] =
      [("run", [(500, 1250)])] := by
  refine ⟨fun _ _ => rfl, fun _ _ => rfl, fun _ _ => rfl, pyRound_nearest,
    ?_, ?_, ?_, ?_⟩
  all_goals
    norm_num [intervalsIgnoreFrames, intervalsNoiseFrames,
      intervalsUserFrames, pyRound]

/-- C6 counterexample: the very first (EMPTY-stage) invocation writes the
`Correlate` field (setting it to a `None` placeholder), although per the
stage table that field is produced by the CORRELATE stage, not by EMPTY —
refuting the claim that each invocation writes only the fields its stage
produces. -/
theorem wiffecg_C6_counterexample :
    getField initStateRec .Correlate = none ∧
    getField (processStage false false okEngine ["Lead I"] [] [] [] 0
        initStateRec).mem .Correlate = some .pyNone ∧
    specFieldProducer .Correlate = .CORRELATE ∧
    initStateRec.state = .EMPTY ∧
    (ProcessingStateEnum.CORRELATE ≠ .EMPTY) :=
  ⟨rfl, rfl, rfl, rfl, by decide⟩

/-- C6 amended: the EMPTY stage initializes all result fields (its own
`Channels` plus `None` placeholders for later stages); apart from that,
across every sequence of driver invocations from a fresh record, a
successful invocation never clears or overwrites a field that already holds
a non-`None` value, and every invocation leaves all fields outside the
write set of its stage unchanged. -/
theorem wiffecg_C6_amended :
    (∀ (leads : List String) (s : StateRec) (png pdf : Bool) (eng : Engine)
       (iu : List (String × List (Int × Int))) (ii inz : List (Int × Int))
       (params : Nat) (k : FieldKey) (v : PyVal),
       Reach leads s →
       (processStage png pdf eng leads iu ii inz params s).err = none →
       getField s k = some v → v ≠ .pyNone →
       getField (processStage png pdf eng leads iu ii inz params s).mem k =
           some v ∧
         getField
             (processStage png pdf eng leads iu ii inz params s).disk k =
           some v) ∧
    (∀ (png pdf : Bool) (eng : Engine) (leads : List String)
       (iu : List (String × List (Int × Int))) (ii inz : List (Int × Int))
       (params : Nat) (s : StateRec) (k : FieldKey),
       ¬ k ∈ stageWrites s.state →
       getField (processStage png pdf eng leads iu ii inz params s).mem k =
         getField s k) := by
  constructor
  · intro leads s png pdf eng iu ii inz params k v hr hok hv hne
    have hmd :
        (processStage png pdf eng leads iu ii inz params s).mem =
          (processStage png pdf eng leads iu ii inz params s).disk := by
      rcases processStage_cases png pdf eng leads iu ii inz params s with
        ⟨_, h2⟩ | ⟨e', he, _, _⟩
      · exact h2
      · rw [hok] at he
        cases he
    suffices hmem :
        getField (processStage png pdf eng leads iu ii inz params s).mem k =
          some v by
      exact ⟨hmem, by rw [← hmd]; exact hmem⟩
    rcases reach_shape leads s hr with h2 | ⟨h1, h2, h3⟩ | h1
    · subst h2
      cases k <;> simp [getField, initStateRec] at hv
    · rcases he : eng.GetPotentialsAndPeaks ii inz with e | ⟨p, q⟩
      · simp [processStage, h1, he, failStep] at hok
      · cases k <;> simp_all [processStage, h1, he, getField, saveStep]
    · have hf := correlate_fails png pdf eng leads iu ii inz params s h1
      simp [hok] at hf
  · intro png pdf eng leads iu ii inz params s k hk
    exact getField_unchanged png pdf eng leads iu ii inz params s k hk

/-- C6 amended, witness: the stored channel list survives the detection
stage on a reachable record, and a terminal-stage invocation leaves
`Channels` unchanged. -/
theorem wiffecg_C6_amended_witness :
    (getField exInitState .Channels = some (.strs ["Lead I"])) ∧
    (PyVal.strs ["Lead I"] ≠ .pyNone) ∧
    ((processStage false false okEngine ["Lead I"] [] [] [] 0
        exInitState).err = none) ∧
    getField (processStage false false okEngine ["Lead I"] [] [] [] 0
        exInitState).mem .Channels = some (.strs ["Lead I"]) ∧
    getField (processStage false false okEngine ["Lead I"] [] [] [] 0
        exInitState).disk .Channels = some (.strs ["Lead I"]) ∧
    (¬ FieldKey.Channels ∈ stageWrites exCompletedState.state) ∧
    getField (processStage false false okEngine ["Lead I"] [] [] [] 0
        exCompletedState).mem .Channels =
      getField exCompletedState .Channels := by
  have h1 :=
    wiffecg_C6_amended.1 ["Lead I"] exInitState false false okEngine
      [] [] [] 0 .Channels (.strs ["Lead I"])
      (Reach.step false false okEngine [] [] [] 0 initStateRec
        Reach.fresh rfl)
      rfl rfl (by decide)
  have h2 :=
    wiffecg_C6_amended.2 false false okEngine ["Lead I"] [] [] [] 0
      exCompletedState .Channels (by decide)
  exact ⟨rfl, by decide, rfl, h1.1, h1.2, by decide, h2⟩

/-- C7 (code bug): when the persisted stage is CORRELATE the invocation
reads channels, potentials and peaks and then raises
NameError (the unbound name chan) — it never computes or stores the
correlation and never advances to KEEPKEYS; the record is left exactly as
it was. -/
theorem wiffecg_C7_correlate_nameerror :
    ∀ (png pdf : Bool) (eng : Engine) (leads : List String)
      (iu : List (String × List (Int × Int))) (ii inz : List (Int × Int))
      (params : Nat) (s : StateRec),
      s.state = .CORRELATE →
      (getField s .Channels).isSome = true →
      (getField s .Potentials).isSome = true →
      (getField s .Peaks).isSome = true →
      processStage png pdf eng leads iu ii inz params s =
        failStep s (.nameError "chan") := by
  intro png pdf eng leads iu ii inz params s h1 h2 h3 h4
  obtain ⟨c, hc⟩ := Option.isSome_iff_exists.mp h2
  obtain ⟨p, hp⟩ := Option.isSome_iff_exists.mp h3
  obtain ⟨q, hq⟩ := Option.isSome_iff_exists.mp h4
  simp [processStage, h1, getKey, hc, hp, hq]

/-- C7, witness at a concrete CORRELATE record with stored results. -/
theorem wiffecg_C7_correlate_nameerror_witness :
    (exCorrelateState.state = .CORRELATE) ∧
    (getField exCorrelateState .Channels).isSome = true ∧
    (getField exCorrelateState .Potentials).isSome = true ∧
    (getField exCorrelateState .Peaks).isSome = true ∧
    processStage false false okEngine ["Lead I"] [] [] [] 0
        exCorrelateState =
      failStep exCorrelateState (.nameError "chan") :=
  ⟨rfl, rfl, rfl, rfl,
   wiffecg_C7_correlate_nameerror false false okEngine ["Lead I"] [] [] [] 0
     exCorrelateState rfl rfl rfl rfl⟩

/-- C8: the flag-dependent successors after the R-R computation: from
CALCULATERR a completed invocation advances to SAVEPNG when `savepng` is
true, else SAVEPDF when `savepdf` is true, else COMPLETED; from SAVEPNG to
SAVEPDF when `savepdf` is true, else COMPLETED; from SAVEPDF always to
COMPLETED — a stage whose flag is false is bypassed and its successor
entered directly. -/
theorem wiffecg_C8_flag_successors :
    ∀ (png pdf : Bool) (eng : Engine) (leads : List String)
      (iu : List (String × List (Int × Int))) (ii inz : List (Int × Int))
      (params : Nat) (s : StateRec),
      (s.state = .CALCULATERR →
        (processStage png pdf eng leads iu ii inz params s).err = none →
        (processStage png pdf eng leads iu ii inz params s).mem.state =
          (if png then .SAVEPNG
           else if pdf then .SAVEPDF else .COMPLETED)) ∧
      (s.state = .SAVEPNG →
        processStage png pdf eng leads iu ii inz params s =
          saveStep { s with
            state := if pdf then .SAVEPDF else .COMPLETED }) ∧
      (s.state = .SAVEPDF →
        processStage png pdf eng leads iu ii inz params s =
          saveStep { s with state := .COMPLETED }) := by
  intro png pdf eng leads iu ii inz params s
  refine ⟨fun h hok => calcrr_next png pdf eng leads iu ii inz params s h hok,
    fun h => by simp [processStage, h], fun h => by simp [processStage, h]⟩

/-- C8, witness with both flags true at concrete CALCULATERR, SAVEPNG and
SAVEPDF records. -/
theorem wiffecg_C8_flag_successors_witness :
    (exCalcState.state = .CALCULATERR) ∧
    ((processStage true true okEngine ["Lead I"] [] [] [] 0
        exCalcState).err = none) ∧
    (processStage true true okEngine ["Lead I"] [] [] [] 0
        exCalcState).mem.state = .SAVEPNG ∧
    (exPngState.state = .SAVEPNG) ∧
    processStage true true okEngine ["Lead I"] [] [] [] 0 exPngState =
      saveStep { exPngState with state := .SAVEPDF } ∧
    (exPdfState.state = .SAVEPDF) ∧
    processStage true true okEngine ["Lead I"] [] [] [] 0 exPdfState =
      saveStep { exPdfState with state := .COMPLETED } :=
  ⟨rfl, rfl,
   (wiffecg_C8_flag_successors true true okEngine ["Lead I"] [] [] [] 0
       exCalcState).1 rfl rfl,
   rfl,
   (wiffecg_C8_flag_successors true true okEngine ["Lead I"] [] [] [] 0
       exPngState).2.1 rfl,
   rfl,
   (wiffecg_C8_flag_successors true true okEngine ["Lead I"] [] [] [] 0
       exPdfState).2.2 rfl⟩

/-- C9 counterexample: the open guard is per-instance, not per-path — with
one live handle on the path (the first open returns a manager whose handle
is held), a second, distinct `ZipMan` on the same path still opens
successfully instead of failing. -/
theorem wiffecg_C9_counterexample :
    ZipMan.openFile (ZipMan.init "a.zip") none =
      .ok ({ fname := "a.zip", zipH := some (), stateM := initStateRec },
        some initStateRec) ∧
    ZipMan.openFile (ZipMan.init "a.zip") (some initStateRec) =
      .ok ({ fname := "a.zip", zipH := some (), stateM := initStateRec },
        some initStateRec) :=
  ⟨rfl, rfl⟩

/-- C9 amended: calling open on a `ZipMan` instance that already holds a
handle raises the bare Exception with message File is already open; the
guard protects a single instance only. -/
theorem wiffecg_C9_instance_guard :
    ∀ (zm : ZipMan) (arch : Option StateRec),
      zm.zipH.isSome = true →
      ZipMan.openFile zm arch =
        .error (.exception "File is already open") := by
  intro zm arch h
  unfold ZipMan.openFile
  simp [h]

/-- C9 amended, witness at a concrete open instance. -/
theorem wiffecg_C9_instance_guard_witness :
    ((ZipMan.mk "a.zip" (some ()) initStateRec).zipH.isSome = true) ∧
    ZipMan.openFile (ZipMan.mk "a.zip" (some ()) initStateRec) none =
      .error (.exception "File is already open") :=
  ⟨rfl,
   wiffecg_C9_instance_guard (ZipMan.mk "a.zip" (some ()) initStateRec)
     none rfl⟩

/-- C10 counterexample: at speed 64 mm/sec and sampling rate 100 the exact
window is 317.5 samples; the code computes int truncation, 317, while the
claimed formula round gives 318. -/
theorem wiffecg_C10_counterexample :
    exportStepSamples 64 100 = 317 ∧
    pyRound ((8 * (254/10)) / 64 * 100) = 318 ∧
    (317 : ℤ) ≠ 318 := by
  refine ⟨?_, ?_, by decide⟩
  · norm_num [exportStepSamples, pyInt]
  · norm_num [pyRound]

/-- C10 amended: the window length in samples is the int truncation (not
the nearest rounding) of pageWidthMM / speedMMsec * samplingRate with
pageWidthMM fixed at 203.2; a page is emitted exactly when the one-shifted
running sample index modulo the window length reaches zero, and for a
window of at least two samples the first frame emits no (empty) page. -/
theorem wiffecg_C10_pagination_amended :
    (∀ speed freq : ℚ,
       exportStepSamples speed freq =
         pyInt ((8 * (254/10)) / speed * freq)) ∧
    (∀ (freq : ℚ) (step : ℤ) (nleads : ℕ) (frames : List (ℕ × List ℚ)),
       0 < step →
       (exportFrames freq step nleads frames).pages.length =
         frames.countP (fun f => ((f.1 : ℤ) + 1) % step == 0)) ∧
    (∀ (freq : ℚ) (step : ℤ) (nleads : ℕ) (vs : List ℚ),
       2 ≤ step →
       (exportFrames freq step nleads [(0, vs)]).pages = []) := by
  refine ⟨fun _ _ => rfl, ?_, ?_⟩
  · intro freq step nleads frames h
    rw [exportFrames, exportPages_len]
    simp
  · intro freq step nleads vs h
    have hr : (1 : ℤ) % step = 1 :=
      Int.emod_eq_of_lt (by norm_num) (by omega)
    simp [exportFrames, pdfFrameStep, hr]

/-- C10 amended, witness: with window length 2 the two-frame stream emits
exactly one page (at the frame of index 1), and a lone index-0 frame emits
none. -/
theorem wiffecg_C10_pagination_witness :
    ((0 : ℤ) < 2) ∧
    (exportFrames 1 2 1 [(0, [5]), (1, [6])]).pages.length =
      [((0 : ℕ), [(5 : ℚ)]), (1, [6])].countP
        (fun f => ((f.1 : ℤ) + 1) % 2 == 0) ∧
    ((2 : ℤ) ≤ 2) ∧
    (exportFrames 1 2 1 [(0, [5])]).pages = [] :=
  ⟨by decide,
   wiffecg_C10_pagination_amended.2.1 1 2 1 [(0, [5]), (1, [6])] (by decide),
   by decide,
   wiffecg_C10_pagination_amended.2.2 1 2 1 [5] (by decide)⟩
